import Mathlib

/-!
# Verification of `pyro/contrib/cevae/__init__.py`

A shallow embedding of the CEVAE module (Causal Effect Variational
Autoencoder): configuration validation, the `DiagNormalNet` head, the
`fit` shape assertions, the twin-head `y_dist` selection, the
`TraceCausalEffect_ELBO` loss decomposition, the `ite` estimator
contrast, and the generative `Model.forward` evaluation.

Tensors are modelled as `List ℚ` (vectors) or `List (List ℚ)` (batched
matrices, one inner list per row), or abstractly by a type parameter
where only dataflow matters.  Transcendental backend primitives
(softplus, distribution samplers and log-densities) are not expressible
as computable rational functions, so they are taken as explicit function
parameters; every theorem below quantifies over them, hence holds for
the actual floating-point primitives in particular.
-/

namespace CEVAE

/-! ## Python configuration values (`CEVAE.__init__`, lines 291-296)

`isinstance(size, int)` is true in Python for both `int` and `bool`
(`bool` is a subclass of `int`); `True > 0` holds since `True == 1`.
`PyVal` models the values a caller can pass for the four configuration
fields: a Python `int`, a Python `bool`, or anything else (a float, a
string, ...), for which `isinstance(size, int)` is false. -/

inductive PyVal : Type
  | pyInt (n : ℤ)
  | pyBool (b : Bool)
  | pyOther
  deriving DecidableEq, Repr

/-- Python `isinstance(size, int)`: true for `int` and for `bool`
(a subclass of `int`). -/
def PyVal.isInstInt : PyVal → Bool
  | .pyInt _ => true
  | .pyBool _ => true
  | .pyOther => false

/-- The integer value of a `PyVal` when used in arithmetic
(`True == 1`, `False == 0`); irrelevant for `pyOther`, which never
reaches arithmetic because the validation guard short-circuits. -/
def PyVal.toInt : PyVal → ℤ
  | .pyInt n => n
  | .pyBool b => if b then 1 else 0
  | .pyOther => 0

/-- The guard `isinstance(size, int) and size > 0` from
`CEVAE.__init__` line 295. -/
def posIntCheck (v : PyVal) : Bool :=
  v.isInstInt && decide (0 < v.toInt)

/-- `CEVAE.__init__` (lines 291-296): iterates over the config dict in
insertion order (`feature_dim`, `latent_dim`, `hidden_dim`,
`num_layers`) and raises `ValueError("Expected {name} > 0 but got
{size}")` at the first field failing `posIntCheck`.  The error is
modelled by the offending field's name; success returns the four
dimensions as integers. -/
def cevaeInit (feature_dim latent_dim hidden_dim num_layers : PyVal) :
    Except String (ℤ × ℤ × ℤ × ℤ) :=
  if !posIntCheck feature_dim then .error "feature_dim"
  else if !posIntCheck latent_dim then .error "latent_dim"
  else if !posIntCheck hidden_dim then .error "hidden_dim"
  else if !posIntCheck num_layers then .error "num_layers"
  else .ok (feature_dim.toInt, latent_dim.toInt, hidden_dim.toInt, num_layers.toInt)

/-! ## `DiagNormalNet.forward` (lines 70-75) -/

/-- The epsilon of `.clamp(min=1e-10)` in `DiagNormalNet.forward`. -/
def clampEps : ℚ := 1 / 10 ^ 10

/-- `tensor.clamp(min=eps)`. -/
def clampMin (x eps : ℚ) : ℚ := max x eps

/-- `DiagNormalNet.forward` (lines 70-75): run the fully connected
backbone, split its output in half into `loc` and raw scale, pass the
raw scale through softplus and clamp it at `1e-10`.  The backbone `fc`
and the transcendental `softplus` primitive are parameters; in
floating point `softplus` can underflow to `0`, which is exactly what
the clamp guards against, so no positivity of `softplus` is assumed. -/
def diagNormalForward (fc : List ℚ → List ℚ) (softplus : ℚ → ℚ)
    (x : List ℚ) : List ℚ × List ℚ :=
  let loc_scale := fc x
  let d := loc_scale.length / 2
  (loc_scale.take d,
   (loc_scale.drop d).map fun u => clampMin (softplus u) clampEps)

/-! ## `CEVAE.fit` shape assertions (lines 317-319)

Tensor shapes are lists of dimension sizes, so `x.dim()` is
`shape.length`, `x.size(-1)` is the last entry, and Python's
`shape[:1]` is `shape.take 1`.  The three `assert` statements are:

    assert x.dim() == 2 and x.size(-1) == self.feature_dim
    assert t.shape == x.shape[:1]
    assert y.shape == y.shape[:1]

Note the third assert compares `y.shape` with `y.shape[:1]`, not with
`x.shape[:1]`. -/

/-- `true` iff all three `assert` statements of `CEVAE.fit`
(lines 317-319) pass for the given input shapes. -/
def fitAsserts (feature_dim : ℕ) (xShape tShape yShape : List ℕ) : Bool :=
  (decide (xShape.length = 2) && decide (xShape.getLastD 0 = feature_dim))
    && decide (tShape = xShape.take 1)
    && decide (yShape = yShape.take 1)

/-! ## Tensors with gradients, traces, and the CEVAE loss
(`TraceCausalEffect_ELBO`, lines 224-251)

A scalar loss tensor is modelled as a dual number: its evaluated value
together with a gradient component (the directional derivative with
respect to the parameters along an arbitrary fixed direction).  A
*detached* scalar — the result of pyro's `torch_item` — is a plain `ℚ`
carrying no gradient component. -/

/-- A differentiable scalar: evaluated value plus gradient component. -/
structure Dual : Type where
  val : ℚ
  grad : ℚ
  deriving DecidableEq, Repr

instance : Zero Dual := ⟨⟨0, 0⟩⟩

instance : Add Dual := ⟨fun a b => ⟨a.val + b.val, a.grad + b.grad⟩⟩

instance : Sub Dual := ⟨fun a b => ⟨a.val - b.val, a.grad - b.grad⟩⟩

/-- `pyro.infer.util.torch_item`: extract the plain numeric value of a
scalar tensor, detaching it from the computation graph. -/
def torch_item (d : Dual) : ℚ := d.val

/-- One node of an execution trace, with the attributes
`TraceCausalEffect_ELBO._differentiable_loss_particle` reads:
`site["type"]`, `site["is_observed"]`, `site["log_prob_sum"]`. -/
structure Site : Type where
  name : String
  stype : String
  is_observed : Bool
  log_prob_sum : Dual
  deriving DecidableEq, Repr

/-- An execution trace: the ordered mapping `trace.nodes` from site
name to site record. -/
def Trace : Type := List Site

/-- The total `log_prob_sum` of all sample sites of a trace. -/
def Trace.sampleLogProbSum (tr : Trace) : Dual :=
  ((tr.filter fun s => s.stype == "sample").map Site.log_prob_sum).sum

/-- `trace.nodes[name]["log_prob_sum"]` (defaulting to `0` for a
missing name, which the loss code never hits). -/
def Trace.logProbOf (tr : Trace) (name : String) : Dual :=
  ((tr.find? fun s => s.name == name).map Site.log_prob_sum).getD 0

/-- `del nodes[name] for name in names`: drop every site whose name is
listed. -/
def Trace.deleteSites (tr : Trace) (names : List String) : Trace :=
  tr.filter fun s => !names.contains s.name

/-- Modelled from the spec: the base class method
`Trace_ELBO._differentiable_loss_particle` lives in
`pyro/infer/trace_elbo.py`, which is not part of the sources here.
Per the spec it computes "the standard per-particle ELBO-style
differentiable loss (negative log joint from Model minus
entropy/negative-log-density terms from Guide)", i.e. the negated
ELBO `log q - log p` summed over sample sites, and returns the
reporting loss as a detached scalar equal in value to the
gradient-carrying surrogate loss. -/
def traceELBOLossParticle (model_trace guide_trace : Trace) : ℚ × Dual :=
  let surrogate :=
    guide_trace.sampleLogProbSum - model_trace.sampleLogProbSum
  (torch_item surrogate, surrogate)

/-- `TraceCausalEffect_ELBO._differentiable_loss_particle`
(lines 231-247): collect the names of observed sample sites of the
guide trace, delete them from a copy of the guide trace, run the base
ELBO loss on the reduced trace, then subtract each blocked site's
`log_prob_sum` — detached via `torch_item` from the reporting loss,
undetached from the surrogate loss. -/
def causalEffectLossParticle (model_trace guide_trace : Trace) : ℚ × Dual :=
  let blocked_names :=
    (guide_trace.filter fun s => s.stype == "sample" && s.is_observed).map
      Site.name
  let blocked_guide_trace := guide_trace.deleteSites blocked_names
  let base := traceELBOLossParticle model_trace blocked_guide_trace
  blocked_names.foldl
    (fun p name =>
      let log_q := guide_trace.logProbOf name
      (p.1 - torch_item log_q, p.2 - log_q))
    base

/-- The trace produced by one evaluation of `Guide.forward`
(lines 189-199) on a minibatch with both `t` and `y` supplied as
observations: sites `t` and `y` are observed sample sites (their
`obs` argument is not `None`) and `z` is a latent sample site, with
the given guide log-densities. -/
def guideTrace (log_q_t log_q_y log_q_z : Dual) : Trace :=
  [⟨"t", "sample", true, log_q_t⟩,
   ⟨"y", "sample", true, log_q_y⟩,
   ⟨"z", "sample", false, log_q_z⟩]

/-! ## Twin-head selection (`Model.y_dist`, lines 145-150) -/

/-- `torch.where(cond, a, b)` on batched per-row scalars. -/
def torchWhere (cond : List Bool) (a b : List ℚ) : List ℚ :=
  (cond.zip (a.zip b)).map fun cab => if cab.1 then cab.2.1 else cab.2.2

/-- The logits of the Bernoulli distribution built by `Model.y_dist`
(lines 145-150): apply the `y1_nn` head and the `y0_nn` head to every
row of `z`, then select per row with `torch.where(t.bool(), logits1,
logits0)`.  The two heads are independently parameterized networks:
`y1_nn` reads only its own parameters `p1` and `y0_nn` only `p0`. -/
def yDistLogits {P : Type} (y1_nn y0_nn : P → List ℚ → ℚ) (p1 p0 : P)
    (t : List Bool) (z : List (List ℚ)) : List ℚ :=
  torchWhere t (z.map (y1_nn p1)) (z.map (y0_nn p0))

/-! ## The `ite` contrast (`CEVAE.ite`, lines 355-362)

After the guide trace is recorded, the model is replayed twice on the
same `x` with the same sampled `Z`: once under `do(t=0)` giving the
particle matrix `y0` and once under `do(t=1)` giving `y1` (particle
dimension first), and the estimate is `(y1 - y0).mean(0)`.  With the
posterior samples of `Z` fixed, the outcome matrix produced by a
replay is a fixed function of the forced treatment value, modelled
below as `yRep : Bool → Fin P → Fin N → ℚ`. -/

/-- `tensor.mean(0)`: mean over the particle dimension of a
`P × N` matrix. -/
def meanDim0 (P N : ℕ) (m : Fin P → Fin N → ℚ) : Fin N → ℚ :=
  fun j => (∑ i, m i j) / (P : ℚ)

/-- The `ite` estimate (line 362) from the replayed outcome matrices:
the particle-mean of the outcomes under `do(t=hi)` minus the outcomes
under `do(t=lo)`, both obtained from the same sampled `Z`. -/
def iteEstimate (P N : ℕ) (yRep : Bool → Fin P → Fin N → ℚ)
    (hi lo : Bool) : Fin N → ℚ :=
  meanDim0 P N fun i j => yRep hi i j - yRep lo i j

/-! ## `Model.forward` (lines 128-136)

One joint evaluation of the generative model.  The tensor type `V` is
abstract; the distribution primitives (samplers threaded through an
explicit generator state, modelling `torch`'s seeded PRNG, and
log-density evaluators) and the four member networks are explicit
parameters, fixed for both runs when determinism is at stake. -/

/-- The distribution/tensor primitives `Model.forward` consumes.
`sampleNormal loc scale g` draws from `Normal(loc, scale)` advancing
the generator state `g`; similarly `sampleBernoulli` draws from
`Bernoulli(logits)`.  `normalLogProb`/`bernoulliLogProb` are the
log-densities recorded at each site. -/
structure TorchPrims (V : Type) : Type where
  zero : V
  one : V
  sampleNormal : V → V → ℕ → V × ℕ
  sampleBernoulli : V → ℕ → V × ℕ
  normalLogProb : V → V → V → ℚ
  bernoulliLogProb : V → V → ℚ
  twhere : V → V → V → V

/-- The four neural networks owned by `Model` (lines 119-126). -/
structure ModelNets (V : Type) : Type where
  x_nn : V → V × V
  y0_nn : V → V
  y1_nn : V → V
  t_nn : V → V

/-- One recorded site of a model run: name, observedness, the value at
the site, and its log-density. -/
structure RunSite (V : Type) : Type where
  name : String
  is_observed : Bool
  value : V
  log_prob : ℚ

/-- The value recorded at a named site of a run trace. -/
def runValue {V : Type} (tr : List (RunSite V)) (name : String) :
    Option V :=
  (tr.find? fun s => s.name == name).map RunSite.value

/-- The log-density recorded at a named site of a run trace. -/
def runLogProb {V : Type} (tr : List (RunSite V)) (name : String) :
    Option ℚ :=
  (tr.find? fun s => s.name == name).map RunSite.log_prob

/-- `Model.forward` (lines 128-136): inside the data plate, sample
`z ~ Normal(0,1)` (never observed), observe `x` against `x_dist(z)`,
sample or observe `t` against `t_dist(z)` and `y` against
`y_dist(t, z)`, and return `y`.  `pyro.sample(name, d, obs=v)` with
`v ≠ None` records the observed value with its log-density and draws
nothing; with `obs=None` it draws from `d` using the generator.
Returns the recorded trace, the function's return value `y`, and the
advanced generator state. -/
def modelForward {V : Type} (pr : TorchPrims V) (nets : ModelNets V)
    (x : V) (tOpt yOpt : Option V) (g : ℕ) :
    List (RunSite V) × V × ℕ :=
  let zDraw := pr.sampleNormal pr.zero pr.one g
  let z := zDraw.1
  let g1 := zDraw.2
  let sz : RunSite V := ⟨"z", false, z, pr.normalLogProb pr.zero pr.one z⟩
  let locScale := nets.x_nn z
  let sx : RunSite V :=
    ⟨"x", true, x, pr.normalLogProb locScale.1 locScale.2 x⟩
  let tLogits := nets.t_nn z
  let tRes : V × ℕ × Bool :=
    match tOpt with
    | some tv => (tv, g1, true)
    | none =>
        let d := pr.sampleBernoulli tLogits g1
        (d.1, d.2, false)
  let t := tRes.1
  let g2 := tRes.2.1
  let st : RunSite V := ⟨"t", tRes.2.2, t, pr.bernoulliLogProb tLogits t⟩
  let yLogits := pr.twhere t (nets.y1_nn z) (nets.y0_nn z)
  let yRes : V × ℕ × Bool :=
    match yOpt with
    | some yv => (yv, g2, true)
    | none =>
        let d := pr.sampleBernoulli yLogits g2
        (d.1, d.2, false)
  let y := yRes.1
  let g3 := yRes.2.1
  let sy : RunSite V := ⟨"y", yRes.2.2, y, pr.bernoulliLogProb yLogits y⟩
  ([sz, sx, st, sy], y, g3)

/-- Concrete rational-valued primitives used to exercise the model
embedding on closed inputs: the samplers read successive values off
the generator state. -/
def ratPrims : TorchPrims ℚ where
  zero := 0
  one := 1
  sampleNormal := fun loc scale g => (loc + scale * (g : ℚ), g + 1)
  sampleBernoulli := fun _ g => (if g % 2 = 0 then 0 else 1, g + 1)
  normalLogProb := fun loc scale v => -(v - loc) * (v - loc) - scale
  bernoulliLogProb := fun logits v => logits * v - 1
  twhere := fun t a b => if t = 0 then b else a

/-- Concrete rational-valued networks for closed-input evaluation. -/
def ratNets : ModelNets ℚ where
  x_nn := fun z => (z + 1, 2)
  y0_nn := fun z => z - 1
  y1_nn := fun z => z + 1
  t_nn := fun z => z

/-! ## Theorems -/

/-- The value of a difference of dual numbers. -/
theorem Dual.sub_val (a b : Dual) : (a - b).val = a.val - b.val := rfl

/-- The log-q subtraction fold of `causalEffectLossParticle` keeps the
reporting loss equal to the value of the surrogate loss. -/
theorem loss_fold_preserves_val (gt : Trace) (names : List String)
    (p : ℚ × Dual) (h : p.1 = p.2.val) :
    (names.foldl
        (fun p name =>
          let log_q := gt.logProbOf name
          (p.1 - torch_item log_q, p.2 - log_q)) p).1
      = (names.foldl
          (fun p name =>
            let log_q := gt.logProbOf name
            (p.1 - torch_item log_q, p.2 - log_q)) p).2.val := by
  induction names generalizing p with
  | nil => exact h
  | cons n ns ih =>
      exact ih _ (by simp [torch_item, Dual.sub_val, h])

/-- C1: on a guide trace from `Guide` over a minibatch with observed
`t` and `y` (observed sample sites `t`, `y` and latent site `z`), the
loss pair of `TraceCausalEffect_ELBO._differentiable_loss_particle`
equals the base ELBO-style loss on the reduced guide trace — the guide
trace with exactly the observed sites `t` and `y` deleted — minus the
guide log-density of `t`, minus the guide log-density of `y`, in both
the reporting and the surrogate component. -/
theorem causal_effect_loss_decomposition (model_trace : Trace)
    (log_q_t log_q_y log_q_z : Dual) :
    causalEffectLossParticle model_trace
        (guideTrace log_q_t log_q_y log_q_z)
      = ((traceELBOLossParticle model_trace
            ((guideTrace log_q_t log_q_y log_q_z).deleteSites ["t", "y"])).1
           - torch_item log_q_t - torch_item log_q_y,
         (traceELBOLossParticle model_trace
            ((guideTrace log_q_t log_q_y log_q_z).deleteSites ["t", "y"])).2
           - log_q_t - log_q_y) := rfl

/-- C2: the scale returned by `DiagNormalNet.forward` is floored at
`1e-10` and in particular strictly positive in every coordinate, for
every backbone, every softplus primitive (including one underflowing
to `0`), and every input. -/
theorem diag_normal_scale_pos (fc : List ℚ → List ℚ) (softplus : ℚ → ℚ)
    (x : List ℚ) (i : ℕ)
    (h : i < (diagNormalForward fc softplus x).2.length) :
    clampEps ≤ (diagNormalForward fc softplus x).2.getD i 0
      ∧ 0 < (diagNormalForward fc softplus x).2.getD i 0 := by
  have heps : (0 : ℚ) < clampEps := by norm_num [clampEps]
  have hlen : i < ((fc x).drop ((fc x).length / 2)).length := by
    simpa [diagNormalForward] using h
  have hval : (diagNormalForward fc softplus x).2.getD i 0
      = clampMin (softplus (((fc x).drop ((fc x).length / 2)).getD i 0))
          clampEps := by
    simp only [diagNormalForward]
    rw [List.getD_eq_getElem _ _ (by simpa using hlen), List.getElem_map,
      List.getD_eq_getElem _ _ hlen]
  rw [hval]
  exact ⟨le_max_right _ _, lt_of_lt_of_le heps (le_max_right _ _)⟩

/-- Witness for C2 at a concrete input, with a softplus primitive that
underflows to `0` on the arbitrarily negative raw pre-activation. -/
theorem diag_normal_scale_pos_witness :
    clampEps ≤ (diagNormalForward id (fun _ => 0) [0, -1000000]).2.getD 0 0
      ∧ 0 < (diagNormalForward id (fun _ => 0) [0, -1000000]).2.getD 0 0 :=
  diag_normal_scale_pos id (fun _ => 0) [0, -1000000] 0 (by decide)

/-- C3 (code bug evidence): with `feature_dim = 5`, `x` of shape
`[3, 5]`, `t` of shape `[3]` and `y` of shape `[2]`, all three shape
assertions of `CEVAE.fit` pass even though `y`'s length differs from
`x`'s leading dimension — the third assert compares `y.shape` against
`y.shape[:1]` (vacuously true for 1-D `y`) instead of `x.shape[:1]`. -/
theorem fit_asserts_pass_despite_y_mismatch :
    fitAsserts 5 [3, 5] [3] [2] = true := by decide

/-- C4: `CEVAE.__init__` succeeds exactly when all four configuration
values pass Python's `isinstance(size, int) and size > 0` guard, and
any raised validation error names a field whose value fails the
guard. -/
theorem cevae_init_validation (f l h n : PyVal) :
    ((∃ c, cevaeInit f l h n = Except.ok c)
        ↔ (posIntCheck f && posIntCheck l && posIntCheck h
            && posIntCheck n) = true)
    ∧ ∀ s, cevaeInit f l h n = Except.error s →
        (s = "feature_dim" ∧ posIntCheck f = false)
        ∨ (s = "latent_dim" ∧ posIntCheck l = false)
        ∨ (s = "hidden_dim" ∧ posIntCheck h = false)
        ∨ (s = "num_layers" ∧ posIntCheck n = false) := by
  rcases hf : posIntCheck f <;> rcases hl : posIntCheck l <;>
    rcases hh : posIntCheck h <;> rcases hn : posIntCheck n <;>
    simp [cevaeInit, hf, hl, hh, hn]

/-- Witness for C4: the default-like configuration
`(5, 20, 200, 3)` passes validation. -/
theorem cevae_init_validation_witness :
    ∃ c, cevaeInit (.pyInt 5) (.pyInt 20) (.pyInt 200) (.pyInt 3)
      = Except.ok c :=
  (cevae_init_validation (.pyInt 5) (.pyInt 20) (.pyInt 200)
      (.pyInt 3)).1.mpr (by decide)

/-- C5-helper: element access of `torch.where`. -/
theorem torchWhere_getD (cond : List Bool) (a b : List ℚ) (i : ℕ)
    (hc : i < cond.length) (ha : i < a.length) (hb : i < b.length) :
    (torchWhere cond a b).getD i 0
      = if cond.getD i true then a.getD i 0 else b.getD i 0 := by
  induction cond generalizing a b i with
  | nil => simp at hc
  | cons c cs ih =>
      cases a with
      | nil => simp at ha
      | cons av as =>
          cases b with
          | nil => simp at hb
          | cons bv bs =>
              cases i with
              | zero => simp [torchWhere]
              | succ j =>
                  have := ih as bs j (by simpa using hc)
                    (by simpa using ha) (by simpa using hb)
                  simpa [torchWhere] using this

/-- C5-helper: element access of a mapped head. -/
theorem head_map_getD (f : List ℚ → ℚ) (z : List (List ℚ)) (i : ℕ)
    (hz : i < z.length) :
    (z.map f).getD i 0 = f (z.getD i []) := by
  rw [List.getD_eq_getElem _ _ (by simpa using hz), List.getElem_map,
    List.getD_eq_getElem _ _ hz]

/-- C5: per row, the logits of `Model.y_dist` equal the `y1_nn` head's
output where `t` is true and the `y0_nn` head's output where `t` is
false; and the entry never depends on the parameters of the
non-selected head (the heads share no parameters). -/
theorem y_dist_twin_head_selection {P : Type}
    (y1_nn y0_nn : P → List ℚ → ℚ) (p1 p0 : P)
    (t : List Bool) (z : List (List ℚ)) (i : ℕ)
    (ht : i < t.length) (hz : i < z.length) :
    ((yDistLogits y1_nn y0_nn p1 p0 t z).getD i 0
        = if t.getD i true then y1_nn p1 (z.getD i [])
          else y0_nn p0 (z.getD i []))
    ∧ (∀ q0 : P, t.getD i true = true →
        (yDistLogits y1_nn y0_nn p1 p0 t z).getD i 0
          = (yDistLogits y1_nn y0_nn p1 q0 t z).getD i 0)
    ∧ (∀ q1 : P, t.getD i true = false →
        (yDistLogits y1_nn y0_nn p1 p0 t z).getD i 0
          = (yDistLogits y1_nn y0_nn q1 p0 t z).getD i 0) := by
  have key : ∀ (a1 a0 : P),
      (yDistLogits y1_nn y0_nn a1 a0 t z).getD i 0
        = if t.getD i true then y1_nn a1 (z.getD i [])
          else y0_nn a0 (z.getD i []) := by
    intro a1 a0
    rw [yDistLogits, torchWhere_getD _ _ _ _ ht (by simpa using hz)
        (by simpa using hz), head_map_getD _ _ _ hz, head_map_getD _ _ _ hz]
  refine ⟨key p1 p0, fun q0 htt => ?_, fun q1 htf => ?_⟩
  · rw [key p1 p0, key p1 q0, htt]
    simp
  · rw [key p1 p0, key q1 p0, htf]
    simp

/-- Witness for C5 at a concrete row. -/
theorem y_dist_twin_head_selection_witness :
    (yDistLogits (fun (p : ℚ) (_ : List ℚ) => p)
        (fun (p : ℚ) (_ : List ℚ) => -p) 7 3 [true] [[]]).getD 0 0
      = (7 : ℚ) := by
  have h := (y_dist_twin_head_selection (fun (p : ℚ) (_ : List ℚ) => p)
      (fun (p : ℚ) (_ : List ℚ) => -p) 7 3 [true] [[]] 0
      (by decide) (by decide)).1
  simpa using h

/-- C6: the `ite` estimate is anti-symmetric under swapping the two
intervention values: with the same replayed outcomes (same sampled
`Z`), the particle-mean of `do(t=1)` minus `do(t=0)` is the negation
of the particle-mean of `do(t=0)` minus `do(t=1)`, in every
coordinate of the output. -/
theorem ite_antisymmetric (P N : ℕ) (yRep : Bool → Fin P → Fin N → ℚ)
    (j : Fin N) :
    iteEstimate P N yRep true false j
      = -iteEstimate P N yRep false true j := by
  simp only [iteEstimate, meanDim0, ← neg_div, ← Finset.sum_neg_distrib,
    neg_sub]

/-- C7: the reporting loss returned by
`TraceCausalEffect_ELBO._differentiable_loss_particle` is a detached
plain scalar (type `ℚ`, no gradient component) equal in value to the
gradient-carrying surrogate loss, for every pair of traces. -/
theorem causal_effect_loss_detached (model_trace guide_trace : Trace) :
    (causalEffectLossParticle model_trace guide_trace).1
      = torch_item (causalEffectLossParticle model_trace guide_trace).2 := by
  simp only [causalEffectLossParticle]
  exact loss_fold_preserves_val _ _ _ rfl

/-- C8: `Model.forward` is deterministic: two evaluations with the
same primitives (the same seeded generator), the same networks
(parameters), the same observed `x`, `t`, `y` and the same initial
generator state record the same log-density at every site. -/
theorem model_forward_deterministic {V : Type} (pr : TorchPrims V)
    (nets : ModelNets V) (x t y : V) (g : ℕ)
    (out1 out2 : List (RunSite V) × V × ℕ)
    (h1 : out1 = modelForward pr nets x (some t) (some y) g)
    (h2 : out2 = modelForward pr nets x (some t) (some y) g)
    (name : String) :
    runLogProb out1.1 name = runLogProb out2.1 name := by
  rw [h1, h2]

/-- Witness for C8: two concrete runs agree at the sampled site `z`. -/
theorem model_forward_deterministic_witness :
    runLogProb (modelForward ratPrims ratNets 1 (some 0) (some 1) 7).1 "z"
      = runLogProb (modelForward ratPrims ratNets 1 (some 0) (some 1) 7).1
          "z" :=
  model_forward_deterministic ratPrims ratNets 1 0 1 7 _ _ rfl rfl "z"

/-- C9: when `y` is supplied as an observation, `Model.forward`
returns exactly that `y`; when `y` is not supplied, the return value
is the value recorded at the sampled `y` site. -/
theorem model_forward_returns_y {V : Type} (pr : TorchPrims V)
    (nets : ModelNets V) (x : V) (tOpt : Option V) (y : V) (g : ℕ) :
    (modelForward pr nets x tOpt (some y) g).2.1 = y
    ∧ ∀ (tOpt' : Option V) (g' : ℕ),
        runValue (modelForward pr nets x tOpt' none g').1 "y"
          = some (modelForward pr nets x tOpt' none g').2.1 := by
  constructor
  · rfl
  · intro tOpt' g'
    rfl

/-- C10: Python's `True` passes the validation guard of
`CEVAE.__init__` in any of the four configuration fields (it is an
`int` instance and `True > 0`), and the model is silently constructed
with that dimension equal to `1`. -/
theorem cevae_init_accepts_bool_true :
    cevaeInit (.pyBool true) (.pyInt 20) (.pyInt 200) (.pyInt 3)
        = Except.ok (1, 20, 200, 3)
    ∧ cevaeInit (.pyInt 5) (.pyBool true) (.pyInt 200) (.pyInt 3)
        = Except.ok (5, 1, 200, 3)
    ∧ cevaeInit (.pyInt 5) (.pyInt 20) (.pyBool true) (.pyInt 3)
        = Except.ok (5, 20, 1, 3)
    ∧ cevaeInit (.pyInt 5) (.pyInt 20) (.pyInt 200) (.pyBool true)
        = Except.ok (5, 20, 200, 1) :=
  ⟨rfl, rfl, rfl, rfl⟩

end CEVAE

